import Mathlib

/-!
Shallow embedding of the browser-side upload client of the
social-media-automation repository: the platform registry, the per-platform
status cards built by the card renderer, the single-flight upload gate
(`uploadFile`), the progress reconciler (the push-channel `onmessage` and
`onerror` handlers), and the drag-drop / file-picker input adapter.

The DOM projection of one platform card is modelled by `Card`; the
process-wide mutable state (the `uploadInProgress` flag, the open progress
channel, and the card grid) by `AppState`.  Network effects are made
explicit: `uploadFile` takes the outcome of the `POST /upload` request as a
parameter and reports the number of requests issued, the number of progress
channels opened, and the console-error log entries it produced.
-/

/-- One registered platform of the static registry (`id`, display name,
icon class), as in the `platforms` array of the source. -/
structure Platform where
  id : String
  name : String
  icon : String
  deriving Repr, DecidableEq

/-- The static platform registry: the six platforms of the source. -/
def platforms : List Platform :=
  [ ⟨"youtube-personal", "YouTube Personal", "fab fa-youtube"⟩,
    ⟨"youtube-charity", "YouTube Charity", "fab fa-youtube"⟩,
    ⟨"instagram-personal", "Instagram Personal", "fab fa-instagram"⟩,
    ⟨"instagram-charity", "Instagram Charity", "fab fa-instagram"⟩,
    ⟨"tiktok-personal", "TikTok Personal", "fab fa-tiktok"⟩,
    ⟨"tiktok-charity", "TikTok Charity", "fab fa-tiktok"⟩ ]

/-- The visible state of one platform card: the width of the
`.progress-bar-fill` element (the interpolated `progress` value), the
`.status-text` content, whether the `error` / `success` CSS classes have
been added to the card, and the display/`href` of the `.error-link`
anchor. -/
structure Card where
  progressWidth : Int
  statusText : String
  errorClass : Bool
  successClass : Bool
  errorLinkVisible : Bool
  errorLinkHref : String
  deriving Repr, DecidableEq

/-- The runtime error raised when `document.getElementById` returns `null`
for an unknown card id and the subsequent `querySelector` dereferences it. -/
inductive DomError where
  | nullCard
  deriving Repr, DecidableEq

/-- The process-wide mutable state of the script: the `uploadInProgress`
single-flight flag, whether a progress `EventSource` channel is open, and
the card grid keyed by platform id. -/
structure AppState where
  uploadInProgress : Bool
  channelOpen : Bool
  cards : List (String × Card)
  deriving Repr, DecidableEq

/-- Look up a card by its platform id, first match wins
(`document.getElementById` on the unique id `platformId + "-card"`). -/
def getCard : List (String × Card) → String → Option Card
  | [], _ => none
  | (k, c) :: rest, pid => if k = pid then some c else getCard rest pid

/-- Replace the first card stored under `pid` (in-place DOM mutation of the
unique card node). -/
def setCard : List (String × Card) → String → Card → List (String × Card)
  | [], _, _ => []
  | (k, c0) :: rest, pid, c =>
      if k = pid then (k, c) :: rest else (k, c0) :: setCard rest pid c

/-- The body of `updateProgress` on a found card node: set the progress-bar
width to `progress` unconditionally, then branch on `status`: on `'error'`
add the `error` class, show `Failed`, reveal the error link and point it at
`/platform/{platformId}`; on `'success'` add the `success` class and show
`Complete`; otherwise show `progress%`.  The `error` argument of the source
function is never read by its body. -/
def updateCard (platformId : String) (progress : Int) (status : String)
    (error : Option String) (card : Card) : Card :=
  let card1 : Card := { card with progressWidth := progress }
  if status = "error" then
    { card1 with errorClass := true, statusText := "Failed",
                 errorLinkVisible := true,
                 errorLinkHref := "/platform/" ++ platformId }
  else if status = "success" then
    { card1 with successClass := true, statusText := "Complete" }
  else
    { card1 with statusText := toString progress ++ "%" }

/-- `updateProgress(platformId, progress, status, error)`: fetch the card
node by id; when no such card exists, `card.querySelector` throws on `null`
and nothing is mutated; otherwise mutate that card as `updateCard` does. -/
def updateProgress (st : AppState) (platformId : String) (progress : Int)
    (status : String) (error : Option String) : Except DomError AppState :=
  match getCard st.cards platformId with
  | none => Except.error DomError.nullCard
  | some card =>
      Except.ok { st with
        cards := setCard st.cards platformId
                   (updateCard platformId progress status error card) }

/-- A freshly rendered card, as built by the card grid setup on page load:
status text `Ready`, hidden error link with placeholder `#` href, empty
progress bar. -/
def initCard : Card :=
  { progressWidth := 0, statusText := "Ready", errorClass := false,
    successClass := false, errorLinkVisible := false, errorLinkHref := "#" }

/-- The state after page load: no upload in flight, no channel open, one
fresh card per registered platform. -/
def initState : AppState :=
  { uploadInProgress := false, channelOpen := false,
    cards := platforms.map (fun p => (p.id, initCard)) }

/-- A file handed over by drag-drop or the file picker; only its media type
is inspected by the client. -/
structure JsFile where
  type : String
  deriving Repr, DecidableEq

/-- Outcome of the `POST /upload` request: a network-level failure, or a
response that is or is not `ok` (2xx). -/
inductive FetchOutcome where
  | networkError
  | response (ok : Bool)
  deriving Repr, DecidableEq

/-- The transport failed: network error or a non-2xx response (both reach
the `catch` block, via the `throw` on `!response.ok`). -/
def fetchFailed : FetchOutcome → Bool
  | FetchOutcome.networkError => true
  | FetchOutcome.response ok => !ok

/-- Result of one call into the upload gate: the state afterwards, how many
upload requests were issued, how many progress channels were opened, and
the console-error log entries produced. -/
structure UploadResult where
  state : AppState
  requests : Nat
  channels : Nat
  logs : List String
  deriving Repr, DecidableEq

/-- `uploadFile(file)`: if `uploadInProgress` is already set, return at
once (no request, no state change).  Otherwise set the flag, issue the
`POST /upload` request; on transport failure log and reset the flag; on a
2xx response open the `/progress` `EventSource` channel. -/
def uploadFile (st : AppState) (file : JsFile) (outcome : FetchOutcome) :
    UploadResult :=
  if st.uploadInProgress then
    { state := st, requests := 0, channels := 0, logs := [] }
  else
    let st1 : AppState := { st with uploadInProgress := true }
    match outcome with
    | FetchOutcome.networkError =>
        { state := { st1 with uploadInProgress := false },
          requests := 1, channels := 0,
          logs := ["Upload failed: TypeError: Failed to fetch"] }
    | FetchOutcome.response ok =>
        if ok then
          { state := { st1 with channelOpen := true },
            requests := 1, channels := 1, logs := [] }
        else
          { state := { st1 with uploadInProgress := false },
            requests := 1, channels := 0,
            logs := ["Upload failed: Error: Upload failed"] }

/-- One per-platform payload of a progress message: `progress`, `status`
and the optional `error` string. -/
structure PInfo where
  progress : Int
  status : String
  error : Option String
  deriving Repr, DecidableEq

/-- One parsed progress message: the `complete` sentinel (true when the
message is `{complete: true}`) and, otherwise, its platform-keyed entries
in `Object.entries` order. -/
structure ProgressMessage where
  complete : Bool
  entries : List (String × PInfo)
  deriving Repr, DecidableEq

/-- The `forEach` over `Object.entries(data)`: apply `updateProgress` to
each entry in order; an exception thrown by an entry leaves the state as of
that entry and aborts the remaining iterations. -/
def processEntries : AppState → List (String × PInfo) →
    AppState × Option DomError
  | st, [] => (st, none)
  | st, (pid, info) :: rest =>
      match updateProgress st pid info.progress info.status info.error with
      | Except.ok st1 => processEntries st1 rest
      | Except.error e => (st, some e)

/-- The channel `onmessage` handler: if `data.complete` is truthy, close
the channel, clear `uploadInProgress` and return; otherwise apply every
per-platform entry of the batch in order. -/
def handleMessage (st : AppState) (msg : ProgressMessage) :
    AppState × Option DomError :=
  if msg.complete then
    ({ st with channelOpen := false, uploadInProgress := false }, none)
  else
    processEntries st msg.entries

/-- The channel `onerror` handler: close the channel and clear
`uploadInProgress`; nothing else is touched. -/
def handleChannelError (st : AppState) : AppState :=
  { st with channelOpen := false, uploadInProgress := false }

/-- `pre` is a leading piece of `s` (the `file.type.startsWith('video/')`
check of the source, on the character sequences of the strings). -/
def strStartsWith (s pre : String) : Bool :=
  pre.data.isPrefixOf s.data

/-- The drop-zone `drop` listener: take the first dropped file, if any; if
its media type begins with `video/`, forward it to the upload gate,
otherwise do nothing. -/
def handleDrop (st : AppState) (dropped : Option JsFile)
    (outcome : FetchOutcome) : UploadResult :=
  match dropped with
  | some f =>
      if strStartsWith f.type "video/" then uploadFile st f outcome
      else { state := st, requests := 0, channels := 0, logs := [] }
  | none => { state := st, requests := 0, channels := 0, logs := [] }

/-- The file-input `change` listener: same filter as the drop listener on
the first selected file. -/
def handleFileInputChange (st : AppState) (selected : Option JsFile)
    (outcome : FetchOutcome) : UploadResult :=
  match selected with
  | some f =>
      if strStartsWith f.type "video/" then uploadFile st f outcome
      else { state := st, requests := 0, channels := 0, logs := [] }
  | none => { state := st, requests := 0, channels := 0, logs := [] }

/-! Helper lemmas about the card grid. -/

theorem getCard_setCard_self (l : List (String × Card)) (pid : String)
    (c0 c : Card) (h : getCard l pid = some c0) :
    getCard (setCard l pid c) pid = some c := by
  induction l with
  | nil => simp [getCard] at h
  | cons hd tl ih =>
    obtain ⟨k, c1⟩ := hd
    by_cases hk : k = pid
    · simp [getCard, setCard, hk]
    · simp only [getCard, setCard, if_neg hk] at h ⊢
      exact ih h

theorem setCard_setCard (l : List (String × Card)) (pid : String)
    (c c' : Card) :
    setCard (setCard l pid c) pid c' = setCard l pid c' := by
  induction l with
  | nil => simp [setCard]
  | cons hd tl ih =>
    obtain ⟨k, c1⟩ := hd
    by_cases hk : k = pid
    · simp [setCard, hk]
    · simp [setCard, hk, ih]

theorem updateCard_idem (pid : String) (p : Int) (s : String)
    (e : Option String) (c : Card) :
    updateCard pid p s e (updateCard pid p s e c) = updateCard pid p s e c := by
  by_cases h1 : s = "error"
  · simp [updateCard, h1]
  · by_cases h2 : s = "success"
    · simp [updateCard, h1, h2]
    · simp [updateCard, h1, h2]

/-- C1: a call to `uploadFile` made while `uploadInProgress` is true is a
no-op: the whole state (flag included) is unchanged, no upload request is
issued, no progress channel is opened, nothing is logged. -/
theorem uploadFile_single_flight (st : AppState) (f : JsFile)
    (o : FetchOutcome) (h : st.uploadInProgress = true) :
    uploadFile st f o =
      { state := st, requests := 0, channels := 0, logs := [] } := by
  simp [uploadFile, h]

theorem uploadFile_single_flight_witness :
    uploadFile { initState with uploadInProgress := true } ⟨"video/mp4"⟩
        (FetchOutcome.response true) =
      { state := { initState with uploadInProgress := true },
        requests := 0, channels := 0, logs := [] } :=
  uploadFile_single_flight { initState with uploadInProgress := true }
    ⟨"video/mp4"⟩ (FetchOutcome.response true) rfl

/-- C2: for an accepted submit (`uploadInProgress` was false) whose upload
POST fails (network error or non-2xx response), the session ends with
`uploadInProgress` reset to false, the error logged, no progress channel
opened, and every card unchanged. -/
theorem uploadFile_transport_failure (st : AppState) (f : JsFile)
    (o : FetchOutcome) (hin : st.uploadInProgress = false)
    (hf : fetchFailed o = true) :
    (uploadFile st f o).state.uploadInProgress = false ∧
    (uploadFile st f o).state.cards = st.cards ∧
    (uploadFile st f o).state.channelOpen = st.channelOpen ∧
    (uploadFile st f o).channels = 0 ∧
    (uploadFile st f o).logs ≠ [] := by
  cases o with
  | networkError => simp [uploadFile, hin]
  | response ok =>
    cases ok with
    | true => simp [fetchFailed] at hf
    | false => simp [uploadFile, hin]

theorem uploadFile_transport_failure_witness :
    (uploadFile initState ⟨"video/mp4"⟩
        (FetchOutcome.response false)).state.uploadInProgress = false ∧
    (uploadFile initState ⟨"video/mp4"⟩
        (FetchOutcome.response false)).state.cards = initState.cards ∧
    (uploadFile initState ⟨"video/mp4"⟩
        (FetchOutcome.response false)).state.channelOpen =
      initState.channelOpen ∧
    (uploadFile initState ⟨"video/mp4"⟩
        (FetchOutcome.response false)).channels = 0 ∧
    (uploadFile initState ⟨"video/mp4"⟩
        (FetchOutcome.response false)).logs ≠ [] :=
  uploadFile_transport_failure initState ⟨"video/mp4"⟩
    (FetchOutcome.response false) rfl rfl

/-- C3: a progress message carrying `complete = true` closes the channel
and clears `uploadInProgress`, whatever the current state (in particular,
whatever the per-platform statuses shown on the cards). -/
theorem handleMessage_complete_closes (st : AppState)
    (msg : ProgressMessage) (h : msg.complete = true) :
    (handleMessage st msg).1.channelOpen = false ∧
    (handleMessage st msg).1.uploadInProgress = false := by
  simp [handleMessage, h]

/-- The state of a session in flight: flag set, progress channel open. -/
def midSessionState : AppState :=
  { initState with uploadInProgress := true, channelOpen := true }

theorem handleMessage_complete_closes_witness :
    (handleMessage midSessionState ⟨true, []⟩).1.channelOpen = false ∧
    (handleMessage midSessionState ⟨true, []⟩).1.uploadInProgress = false :=
  handleMessage_complete_closes midSessionState ⟨true, []⟩ rfl

/-- C4: a channel-level error closes the channel and clears
`uploadInProgress` immediately, and leaves every card exactly as it was:
no platform is marked failed, each keeps its last-known displayed state. -/
theorem handleChannelError_spec (st : AppState) :
    (handleChannelError st).channelOpen = false ∧
    (handleChannelError st).uploadInProgress = false ∧
    (handleChannelError st).cards = st.cards := by
  simp [handleChannelError]

/-- C5 counterexample: the claim says an `'error'` entry freezes the card's
visual progress, but `updateProgress` writes the progress-bar width before
branching on the status.  After an uploading event at 50 the tiktok-charity
bar stands at 50; the error event at progress 30 moves it to 30. -/
theorem error_event_moves_progress_cex :
    ((updateProgress initState "tiktok-charity" 50 "uploading" none).toOption.bind
        (fun s1 => getCard s1.cards "tiktok-charity")).map Card.progressWidth
      = some 50 ∧
    (((updateProgress initState "tiktok-charity" 50 "uploading" none).toOption.bind
        (fun s1 => (updateProgress s1 "tiktok-charity" 30 "error"
            (some "quota exceeded")).toOption)).bind
        (fun s2 => getCard s2.cards "tiktok-charity")).map Card.progressWidth
      = some 30 ∧
    (some (30 : Int) ≠ some (50 : Int)) :=
  ⟨rfl, rfl, by decide⟩

/-- C5 (amended): an `'error'` entry updates the platform's card to show
the `Failed` label and a visible link to `/platform/{platformId}`, and sets
the card's progress indicator to the entry's progress value (the width is
written unconditionally, so the visual progress is not frozen). -/
theorem error_event_card_update (st : AppState) (pid : String) (card : Card)
    (p : Int) (e : Option String) (hget : getCard st.cards pid = some card) :
    (updateProgress st pid p "error" e).toOption.bind
        (fun s1 => getCard s1.cards pid) =
      some { card with progressWidth := p, errorClass := true,
                       statusText := "Failed", errorLinkVisible := true,
                       errorLinkHref := "/platform/" ++ pid } := by
  simp only [updateProgress, hget, Except.toOption, Option.bind]
  rw [getCard_setCard_self st.cards pid card _ hget]
  simp [updateCard]

theorem error_event_card_update_witness :
    (updateProgress initState "tiktok-charity" 30 "error"
        (some "quota exceeded")).toOption.bind
        (fun s1 => getCard s1.cards "tiktok-charity") =
      some { initCard with progressWidth := 30, errorClass := true,
                           statusText := "Failed", errorLinkVisible := true,
                           errorLinkHref := "/platform/tiktok-charity" } :=
  error_event_card_update initState "tiktok-charity" initCard 30
    (some "quota exceeded") (by decide)

/-- C6 counterexample: the claim says `success`/`error` are absorbing, but
after youtube-personal reaches `Complete` a later uploading event at 50
rewrites its status text to `50%`, returning the card to the uploading
display. -/
theorem success_not_absorbing_cex :
    ((updateProgress initState "youtube-personal" 100 "success" none).toOption.bind
        (fun s1 => getCard s1.cards "youtube-personal")).map Card.statusText
      = some "Complete" ∧
    (((updateProgress initState "youtube-personal" 100 "success" none).toOption.bind
        (fun s1 => (updateProgress s1 "youtube-personal" 50 "uploading"
            none).toOption)).bind
        (fun s2 => getCard s2.cards "youtube-personal")).map Card.statusText
      = some "50%" ∧
    (some ("50%" : String) ≠ some ("Complete" : String)) :=
  ⟨rfl, rfl, by decide⟩

/-- C6 (amended): the terminal card states are not absorbing.  A later
event with status `'uploading'` overwrites the card's status text with the
new percentage and sets the progress bar to the new value; only the added
`success`/`error` CSS classes and the error-link visibility and href
persist from the terminal state. -/
theorem uploading_event_after_terminal (st : AppState) (pid : String)
    (card : Card) (p : Int) (e : Option String)
    (hget : getCard st.cards pid = some card) :
    (updateProgress st pid p "uploading" e).toOption.bind
        (fun s1 => getCard s1.cards pid) =
      some { card with progressWidth := p,
                       statusText := toString p ++ "%" } := by
  simp only [updateProgress, hget, Except.toOption, Option.bind]
  rw [getCard_setCard_self st.cards pid card _ hget]
  simp [updateCard]

/-- The state in which youtube-personal has reached the terminal success
display. -/
def successState : AppState :=
  (updateProgress initState "youtube-personal" 100 "success" none).toOption.getD
    initState

/-- The youtube-personal card of `successState`. -/
def successCard : Card :=
  { progressWidth := 100, statusText := "Complete", errorClass := false,
    successClass := true, errorLinkVisible := false, errorLinkHref := "#" }

theorem uploading_event_after_terminal_witness :
    (updateProgress successState "youtube-personal" 50 "uploading"
        none).toOption.bind
        (fun s1 => getCard s1.cards "youtube-personal") =
      some { successCard with progressWidth := 50, statusText := "50%" } :=
  uploading_event_after_terminal successState "youtube-personal" successCard
    50 none (by decide)

/-- C7: `updateProgress` is idempotent on the tuples where it succeeds:
applying it a second time with the identical arguments reproduces exactly
the state the first application produced. -/
theorem updateProgress_idempotent (st st' : AppState) (pid : String)
    (p : Int) (s : String) (e : Option String)
    (h : updateProgress st pid p s e = Except.ok st') :
    updateProgress st' pid p s e = Except.ok st' := by
  unfold updateProgress at h
  cases hg : getCard st.cards pid with
  | none => rw [hg] at h; cases h
  | some card =>
    rw [hg] at h
    injection h with h1
    subst h1
    unfold updateProgress
    simp only
    rw [getCard_setCard_self st.cards pid card _ hg]
    simp [setCard_setCard, updateCard_idem]

/-- The state of the youtube-personal card after one uploading event at
50, used to exhibit idempotence concretely. -/
def idemWitnessState : AppState :=
  (updateProgress initState "youtube-personal" 50 "uploading" none).toOption.getD
    initState

theorem updateProgress_idempotent_witness :
    updateProgress idemWitnessState "youtube-personal" 50 "uploading" none =
      Except.ok idemWitnessState :=
  updateProgress_idempotent initState idemWitnessState "youtube-personal" 50
    "uploading" none rfl

/-- C8: both input adapters filter on the media type.  A file whose type
does not begin with `video/` is dropped: no request, no state change, no
log.  A file whose type does begin with `video/` is forwarded to the
upload gate unchanged, by the drop listener and the file-picker listener
alike. -/
theorem adapter_video_filter (st : AppState) (f g : JsFile)
    (o : FetchOutcome) (hf : strStartsWith f.type "video/" = false)
    (hg : strStartsWith g.type "video/" = true) :
    handleDrop st (some f) o =
      { state := st, requests := 0, channels := 0, logs := [] } ∧
    handleFileInputChange st (some f) o =
      { state := st, requests := 0, channels := 0, logs := [] } ∧
    handleDrop st (some g) o = uploadFile st g o ∧
    handleFileInputChange st (some g) o = uploadFile st g o := by
  refine ⟨?_, ?_, ?_, ?_⟩ <;>
    simp [handleDrop, handleFileInputChange, hf, hg]

theorem adapter_video_filter_witness :
    handleDrop initState (some ⟨"image/png"⟩) (FetchOutcome.response true) =
      { state := initState, requests := 0, channels := 0, logs := [] } ∧
    handleFileInputChange initState (some ⟨"image/png"⟩)
        (FetchOutcome.response true) =
      { state := initState, requests := 0, channels := 0, logs := [] } ∧
    handleDrop initState (some ⟨"video/mp4"⟩) (FetchOutcome.response true) =
      uploadFile initState ⟨"video/mp4"⟩ (FetchOutcome.response true) ∧
    handleFileInputChange initState (some ⟨"video/mp4"⟩)
        (FetchOutcome.response true) =
      uploadFile initState ⟨"video/mp4"⟩ (FetchOutcome.response true) :=
  adapter_video_filter initState ⟨"image/png"⟩ ⟨"video/mp4"⟩
    (FetchOutcome.response true) (by decide) (by decide)

/-- In the page-load state no card exists for an id outside the six
registered platforms. -/
theorem getCard_init_none (pid : String)
    (h : pid ∉ platforms.map Platform.id) :
    getCard initState.cards pid = none := by
  simp [platforms] at h
  push_neg at h
  obtain ⟨h1, h2, h3, h4, h5, h6⟩ := h
  simp [initState, platforms, getCard, Ne.symm h1, Ne.symm h2, Ne.symm h3,
        Ne.symm h4, Ne.symm h5, Ne.symm h6]

/-- C9: `updateProgress` is partial at its public interface: for an id with
no registered card it throws (the `null` returned by
`document.getElementById` is dereferenced), and such an entry at the head
of a progress batch aborts the batch, leaving the state untouched and every
following entry unapplied. -/
theorem updateProgress_unknown_platform (pid : String)
    (h : pid ∉ platforms.map Platform.id) (p : Int) (s : String)
    (e : Option String) (info : PInfo) (rest : List (String × PInfo)) :
    updateProgress initState pid p s e = Except.error DomError.nullCard ∧
    processEntries initState ((pid, info) :: rest) =
      (initState, some DomError.nullCard) := by
  have hc := getCard_init_none pid h
  constructor
  · simp [updateProgress, hc]
  · simp [processEntries, updateProgress, hc]

theorem updateProgress_unknown_platform_witness :
    updateProgress initState "twitter-personal" 10 "uploading" none =
      Except.error DomError.nullCard ∧
    processEntries initState
        [("twitter-personal", ⟨10, "uploading", none⟩),
         ("youtube-personal", ⟨10, "uploading", none⟩)] =
      (initState, some DomError.nullCard) :=
  updateProgress_unknown_platform "twitter-personal" (by decide) 10
    "uploading" none ⟨10, "uploading", none⟩
    [("youtube-personal", ⟨10, "uploading", none⟩)]

/-- C10: a message with `complete = true` closes the channel and clears
`uploadInProgress` before the batch is iterated, so none of its
per-platform entries are applied and no card changes, whatever entries the
message carries. -/
theorem handleMessage_complete_skips_entries (st : AppState)
    (msg : ProgressMessage) (h : msg.complete = true) :
    handleMessage st msg =
      ({ st with channelOpen := false, uploadInProgress := false }, none) := by
  simp [handleMessage, h]

theorem handleMessage_complete_skips_entries_witness :
    handleMessage midSessionState
        ⟨true, [("youtube-personal", ⟨100, "success", none⟩),
                ("tiktok-charity", ⟨30, "error", some "quota exceeded"⟩)]⟩ =
      ({ midSessionState with channelOpen := false,
                              uploadInProgress := false }, none) :=
  handleMessage_complete_skips_entries midSessionState
    ⟨true, [("youtube-personal", ⟨100, "success", none⟩),
            ("tiktok-charity", ⟨30, "error", some "quota exceeded"⟩)]⟩ rfl
